import Mathlib

set_option maxHeartbeats 1000000

/-
Verification of the AudioRecord client-side ring-buffer consumer
(src/media/libmedia/AudioRecord.cpp) against its natural-language
specification.  The shared control block (audio_track_cblk_t), its flag
bits and its cursor helpers (framesReady, buffer) live in a shared-memory
header that is not part of this repository snapshot; those parts are
modelled from the spec and are marked as such.  Machine integers (uint32)
are modelled as Nat with explicit reduction modulo 2^32 where the source
performs 32-bit arithmetic.  The concurrent environment (the producer
process, other client threads holding start/stop, the service) is modelled
by explicit oracle inputs consumed at the points where the source releases
its locks: one WaitEvent per iteration of the obtainBuffer wait loop, and
one RestoreEnv per invocation of restoreRecord_l.
-/

namespace AudioRecord

/-- status_t values and AudioRecord buffer result codes used by the
translated functions (NO_MORE_BUFFERS and STOPPED are the AudioRecord
enum values, the rest are Android status_t codes). -/
inductive Status where
  | NO_ERROR
  | NO_MORE_BUFFERS
  | WOULD_BLOCK
  | TIMED_OUT
  | STOPPED
  | DEAD_OBJECT
  | NO_INIT
  | BAD_VALUE
  | INVALID_OPERATION
  deriving DecidableEq, Repr

/-- Reduction modulo 2^32: the value a uint32 cell holds after a write. -/
def u32 (n : Nat) : Nat := n % 4294967296

/-- uint32 subtraction a - b as the source computes it on 32-bit cells. -/
def sub32 (a b : Nat) : Nat := (u32 a + 4294967296 - u32 b) % 4294967296

/-- Modelled from the spec: the CBLK direction flag bit; the bit layout of
the control-block flags word lives in the shared-memory header outside
src/, the claims only need the bits to be distinct. -/
def CBLK_DIRECTION_MSK : Nat := 2

/-- Modelled from the spec: the INVALID flag bit (producer confirmed dead). -/
def CBLK_INVALID_MSK : Nat := 8

/-- Modelled from the spec: the value OR-ed in to set the INVALID bit. -/
def CBLK_INVALID_ON : Nat := 8

/-- Modelled from the spec: the RESTORING flag bit (a recovery in flight). -/
def CBLK_RESTORING_MSK : Nat := 32

/-- Modelled from the spec: the value OR-ed in to set the RESTORING bit. -/
def CBLK_RESTORING_ON : Nat := 32

/-- Modelled from the spec: the RESTORED flag bit (recovery finished). -/
def CBLK_RESTORED_MSK : Nat := 64

/-- Modelled from the spec: the value OR-ed in to set the RESTORED bit. -/
def CBLK_RESTORED_ON : Nat := 64

/-- Modelled from the spec: the steady-state ("running") wait ceiling in
milliseconds (value from the shared header outside src/). -/
def MAX_RUN_TIMEOUT_MS : Nat := 1000

/-- Modelled from the spec: the fixed short condition-variable wait quantum
in milliseconds (value from the shared header outside src/). -/
def WAIT_PERIOD_MS : Nat := 10

/-- Modelled from the spec: the larger initial-sync wait ceiling used after
a start with a synchronization event (value from AudioSystem outside
src/); the claims only need it to differ from MAX_RUN_TIMEOUT_MS. -/
def kSyncRecordStartTimeOutMs : Nat := 30000

/-- The shared control block audio_track_cblk_t, restricted to the fields
the translated AudioRecord.cpp functions read or write. -/
structure Cblk where
  frameCount : Nat
  frameSize : Nat
  sampleRate : Nat
  user : Nat
  userBase : Nat
  server : Nat
  flags : Nat
  waitTimeMs : Nat
  bufferTimeoutMs : Nat
  deriving DecidableEq, Repr

/-- Modelled from the spec: audio_track_cblk_t::framesReady for a record
track returns the producer-consumer cursor distance server - user
(uint32), saturated to the interval from 0 to frameCount. -/
def Cblk.framesReady (c : Cblk) : Nat :=
  min (sub32 c.server c.user) c.frameCount

/-- Modelled from the spec: audio_track_cblk_t::buffer(offset) yields the
flat address of the given cursor position inside the ring, here the byte
offset (offset - userBase) * frameSize from the start of the region. -/
def Cblk.bufferOffset (c : Cblk) (offset : Nat) : Nat :=
  sub32 offset c.userBase * c.frameSize

/-- The AudioRecord fields the core operations touch: mActive, the current
control block mCblk (the handle/block pair is replaced wholesale by
recovery), and the session parameters used to fill a returned Buffer. -/
structure Session where
  active : Bool
  cblk : Cblk
  channelCount : Nat
  format : Nat
  deriving DecidableEq, Repr

/-- AudioRecord::Buffer, the caller-facing transient view; raw is the byte
offset of the window inside the shared region. -/
structure Buffer where
  flags : Nat
  channelCount : Nat
  format : Nat
  frameCount : Nat
  size : Nat
  raw : Nat
  deriving DecidableEq, Repr

/-- Oracle for one invocation of restoreRecord_l: the outcome of
openRecord_l's service round trip (a fresh control block, or a failure
status), the outcome of the producer-side start on the new stream, and,
for a follower, the outcome of its bounded wait for RESTORED (whether the
wait was signalled in time, and the mActive flag and session block pointer
it observes after reacquiring the locks, both of which the leader may have
changed meanwhile). -/
structure RestoreEnv where
  openResult : Except Status Cblk
  startStatus : Status
  waitOk : Bool
  activeAfterWait : Bool
  cblkAfterWait : Cblk

/-- The part of openRecord_l that installs a freshly opened control block
(AudioRecord.cpp lines 611-619): clear the direction bit and reset the
adaptive timeout state on the new block. -/
def openRecord_l_install (newC : Cblk) : Cblk :=
  { newC with
      flags := newC.flags &&& (4294967295 ^^^ CBLK_DIRECTION_MSK),
      bufferTimeoutMs := MAX_RUN_TIMEOUT_MS,
      waitTimeMs := 0 }

/-- The status the recovery leader ends up with: the openRecord_l failure
status if reopening failed, otherwise the status of the producer-side
start on the new stream (AudioRecord.cpp lines 921-930). -/
def leaderResult (env : RestoreEnv) : Status :=
  match env.openResult with
  | .error e => if e = Status.NO_ERROR then env.startStatus else e
  | .ok _ => env.startStatus

/-- AudioRecord::restoreRecord_l (AudioRecord.cpp lines 907-966) for one
calling thread.  cblk is the block reference the caller holds (aliasing
the session's mCblk at entry); the returned triple is (result, updated
session, updated block reference).  The first branch is the leader (its
atomic test-and-set found RESTORING clear): it sets RESTORING, rebuilds
via openRecord_l and a producer start, marks the session inactive on
failure, then sets RESTORED on the old block.  The second branch is a
follower: it waits (bounded) for RESTORED unless already present, and
reports STOPPED on wait failure or if the session ended up inactive.  On
success the block reference is switched to the session's current block. -/
def restoreRecord_l (s : Session) (cblk : Cblk) (env : RestoreEnv) :
    Status × Session × Cblk :=
  if cblk.flags &&& CBLK_RESTORING_MSK = 0 then
    let old1 : Cblk := { cblk with flags := cblk.flags ||| CBLK_RESTORING_ON }
    let openStatus : Status :=
      match env.openResult with
      | .error e => e
      | .ok _ => Status.NO_ERROR
    let result : Status :=
      if openStatus = Status.NO_ERROR then env.startStatus else openStatus
    let active1 : Bool := if result = Status.NO_ERROR then s.active else false
    let old2 : Cblk := { old1 with flags := old1.flags ||| CBLK_RESTORED_ON }
    match env.openResult with
    | .error _ =>
      let s1 : Session := { s with active := active1, cblk := old2 }
      (result, s1, if result = Status.NO_ERROR then s1.cblk else old2)
    | .ok newC =>
      let s1 : Session := { s with active := active1, cblk := openRecord_l_install newC }
      (result, s1, if result = Status.NO_ERROR then s1.cblk else old2)
  else
    if cblk.flags &&& CBLK_RESTORED_MSK = 0 then
      let result : Status := if env.waitOk then Status.NO_ERROR else Status.TIMED_OUT
      let s1 : Session :=
        { s with active := env.activeAfterWait, cblk := env.cblkAfterWait }
      let result2 : Status :=
        if result ≠ Status.NO_ERROR ∨ s1.active = false then Status.STOPPED else result
      (result2, s1, if result2 = Status.NO_ERROR then s1.cblk else cblk)
    else
      let result2 : Status := if s.active = false then Status.STOPPED else Status.NO_ERROR
      (result2, s, if result2 = Status.NO_ERROR then s.cblk else cblk)

/-- Oracle for one iteration of the obtainBuffer wait loop: whether the
condition-variable wait was signalled (NO_ERROR) or timed out, the
mActive value observed after the wait, whether another thread flagged the
block INVALID during the wait, the producer cursor after the wait, the
status of the health-check nudge start, and the environment for a
restoreRecord_l invocation if one happens this iteration. -/
structure WaitEvent where
  cvNoError : Bool
  activeAfter : Bool
  invalidAfter : Bool
  serverAfter : Nat
  nudgeStatus : Status
  restoreEnv : RestoreEnv

/-- Which return statement of the obtainBuffer wait loop produced an error
result: the inactive check, the non-blocking check, the stopped-after-wait
check, a nudge or recovery failure, or waitCount exhaustion. -/
inductive ErrExit where
  | inactiveEntry
  | wouldBlock
  | stoppedInWait
  | loopError
  | timedOut
  deriving DecidableEq, Repr

/-- Which path obtainBuffer returned through: an error return from inside
the wait loop, or the final fill of a valid view. -/
inductive ObtainExit where
  | err (e : ErrExit)
  | filled
  deriving DecidableEq, Repr

/-- Outcome of one iteration of the obtainBuffer wait loop body: an error
return out of obtainBuffer, or continuation with updated state. -/
inductive StepOut where
  | ret (ex : ErrExit) (st : Status) (s : Session)
  | cont (s : Session) (res : Status) (waitCount : Int)
  deriving Repr

/-- The tail every error-checking arm of the loop body falls through to:
decrement waitCount and return TIMED_OUT when it reaches zero
(AudioRecord.cpp lines 684-687). -/
def stepTail (s : Session) (res : Status) (waitCount : Int) : StepOut :=
  if waitCount - 1 = 0 then .ret .timedOut Status.TIMED_OUT s
  else .cont s res (waitCount - 1)

/-- Continuation after the create_new_record label (AudioRecord.cpp lines
674-687): return a recovery failure to the caller, otherwise clear
waitTimeMs on the (possibly new) block and fall into the waitCount
decrement. -/
def restoreFinish (out : Status × Session × Cblk) (waitCount : Int) : StepOut :=
  if out.1 ≠ Status.NO_ERROR then .ret .loopError out.1 out.2.1
  else
    let c1 : Cblk := { out.2.2 with waitTimeMs := 0 }
    stepTail { out.2.1 with cblk := c1 } out.1 waitCount

/-- One iteration of the obtainBuffer wait loop body after the inactive and
non-blocking checks (AudioRecord.cpp lines 650-688): wait one quantum on
the condition variable unless the block is INVALID, return STOPPED if the
session went inactive during the wait, fall into recovery if the block is
INVALID, and on a timed-out wait accumulate waitTimeMs and run the
health-check nudge once the ceiling is reached. -/
def obtainStep (s : Session) (waitMs : Nat) (prevResult : Status)
    (waitCount : Int) (e : WaitEvent) : StepOut :=
  if s.cblk.flags &&& CBLK_INVALID_MSK = 0 then
    let result1 : Status := if e.cvNoError then Status.NO_ERROR else Status.TIMED_OUT
    let c1 : Cblk :=
      { s.cblk with
          server := u32 e.serverAfter,
          flags := if e.invalidAfter then s.cblk.flags ||| CBLK_INVALID_ON else s.cblk.flags }
    let s1 : Session := { s with active := e.activeAfter, cblk := c1 }
    if s1.active = false then .ret .stoppedInWait Status.STOPPED s1
    else if c1.flags &&& CBLK_INVALID_MSK ≠ 0 then
      restoreFinish (restoreRecord_l s1 c1 e.restoreEnv) waitCount
    else if result1 ≠ Status.NO_ERROR then
      let c2 : Cblk := { c1 with waitTimeMs := u32 (c1.waitTimeMs + waitMs) }
      let s2 : Session := { s1 with cblk := c2 }
      if c2.bufferTimeoutMs ≤ c2.waitTimeMs then
        if e.nudgeStatus = Status.DEAD_OBJECT then
          let c3 : Cblk := { c2 with flags := c2.flags ||| CBLK_INVALID_ON }
          restoreFinish (restoreRecord_l { s2 with cblk := c3 } c3 e.restoreEnv) waitCount
        else if e.nudgeStatus ≠ Status.NO_ERROR then
          .ret .loopError e.nudgeStatus s2
        else
          let c4 : Cblk := { c2 with waitTimeMs := 0 }
          stepTail { s2 with cblk := c4 } Status.NO_ERROR waitCount
      else stepTail s2 result1 waitCount
    else .cont s1 result1 waitCount
  else
    restoreFinish (restoreRecord_l s s.cblk e.restoreEnv) waitCount

/-- Result of the obtainBuffer wait loop: an error return, or loop exit
with framesReady observed nonzero. -/
inductive LoopOut where
  | err (e : ErrExit) (st : Status) (s : Session)
  | ready (s : Session) (fr : Nat)
  deriving Repr

/-- The obtainBuffer wait loop (AudioRecord.cpp lines 637-694): while the
observed framesReady is zero, check the inactive and non-blocking exits,
then run one loop body iteration, consuming one WaitEvent per iteration
and re-reading framesReady at the start_loop_here label.  Returns none if
the oracle event list runs out while still waiting. -/
def obtainLoop (waitMs : Nat) (s : Session) (prev : Status) (wc : Int)
    (fr : Nat) (events : List WaitEvent) : Option LoopOut :=
  if fr ≠ 0 then some (.ready s fr)
  else if s.active = false then some (.err .inactiveEntry Status.NO_MORE_BUFFERS s)
  else if wc = 0 then some (.err .wouldBlock Status.WOULD_BLOCK s)
  else
    match events with
    | [] => none
    | e :: rest =>
      match obtainStep s waitMs prev wc e with
      | .ret ex st s1 => some (.err ex st s1)
      | .cont s1 res1 wc1 => obtainLoop waitMs s1 res1 wc1 s1.cblk.framesReady rest

/-- The result of one obtainBuffer call: which path returned, the status,
the caller's Buffer after the call, and the session state after the
call. -/
structure ObtainResult where
  exit : ObtainExit
  status : Status
  buf : Buffer
  sess : Session
  deriving DecidableEq, Repr

/-- The tail of obtainBuffer past the wait loop (AudioRecord.cpp lines
696-719): clear waitTimeMs, reset the ceiling to the running value, clamp
the request to framesReady and then to the distance to the ring's
physical end userBase + frameCount, and fill the caller's Buffer with the
resulting window at the consumer cursor; the status is NO_ERROR when
still active, STOPPED otherwise. -/
def obtainFill (s1 : Session) (fr : Nat) (bufIn : Buffer) : ObtainResult :=
  let c1 : Cblk := { s1.cblk with waitTimeMs := 0, bufferTimeoutMs := MAX_RUN_TIMEOUT_MS }
  let req1 : Nat := if fr < bufIn.frameCount then fr else bufIn.frameCount
  let dEnd : Nat := sub32 (u32 (c1.userBase + c1.frameCount)) c1.user
  let req2 : Nat := if dEnd < req1 then dEnd else req1
  { exit := .filled,
    status := if s1.active then Status.NO_ERROR else Status.STOPPED,
    buf := { flags := 0, channelCount := s1.channelCount, format := s1.format,
             frameCount := req2, size := req2 * c1.frameSize,
             raw := c1.bufferOffset c1.user },
    sess := { s1 with cblk := c1 } }

/-- AudioRecord::obtainBuffer (AudioRecord.cpp lines 623-720).  The
caller's requested frame count is bufIn.frameCount; the Buffer's
frameCount and size fields are zeroed at entry and only the final fill
assigns them again.  waitCount < 0 selects the adaptive ceiling as the
per-wait quantum, as in the source. -/
def obtainBuffer (s : Session) (bufIn : Buffer) (waitCount : Int)
    (events : List WaitEvent) : Option ObtainResult :=
  match obtainLoop (if waitCount < 0 then s.cblk.bufferTimeoutMs else WAIT_PERIOD_MS)
      s Status.NO_ERROR waitCount s.cblk.framesReady events with
  | none => none
  | some (.err ex st s1) =>
    some { exit := .err ex, status := st,
           buf := { bufIn with frameCount := 0, size := 0 }, sess := s1 }
  | some (.ready s1 fr) => some (obtainFill s1 fr bufIn)

/-- The notification-worker state the event-delivery code of
processAudioBuffer reads and writes: mMarkerPosition, mMarkerReached,
mNewPosition and mUpdatePeriod. -/
structure NotifyState where
  markerPosition : Nat
  markerReached : Bool
  newPosition : Nat
  updatePeriod : Nat
  deriving DecidableEq, Repr

/-- The marker-callback management of processAudioBuffer (AudioRecord.cpp
lines 826-832): with a positive marker armed, fire once when the consumer
cursor has reached it and latch markerReached. -/
def markerStep (user : Nat) (s : NotifyState) : Bool × NotifyState :=
  if s.markerReached = false ∧ 0 < s.markerPosition ∧ s.markerPosition ≤ user then
    (true, { s with markerReached := true })
  else (false, s)

/-- The new-position while loop of processAudioBuffer (AudioRecord.cpp
lines 836-839), fuel-bounded: while the consumer cursor has reached
mNewPosition, fire one EVENT_NEW_POS and advance mNewPosition by the
period (a uint32 add).  Returns (number of events fired, final
mNewPosition). -/
def notifyLoopAux : Nat → Nat → Nat → Nat → Nat × Nat
  | 0, _, np, _ => (0, np)
  | fuel + 1, user, np, p =>
    if np ≤ user then
      let r := notifyLoopAux fuel user (u32 (np + p)) p
      (r.1 + 1, r.2)
    else (0, np)

/-- The closed form of the new-position loop's firing count: zero when the
cursor has not reached mNewPosition, else one firing plus one per further
whole period of progress. -/
def fires (user np p : Nat) : Nat :=
  if np ≤ user then (user - np) / p + 1 else 0

/-- The new-position callback management of processAudioBuffer
(AudioRecord.cpp lines 835-840): when a positive update period is
configured, run the delivery loop.  The fuel user + 1 dominates the
iteration count of every run of the source loop that does not wrap the
32-bit position counter. -/
def periodicStep (user : Nat) (s : NotifyState) : Nat × NotifyState :=
  if 0 < s.updatePeriod then
    let r := notifyLoopAux (user + 1) user s.newPosition s.updatePeriod
    (r.1, { s with newPosition := r.2 })
  else (0, s)

/-- The timed-event delivery prefix of one processAudioBuffer iteration
(AudioRecord.cpp lines 826-840): marker management then new-position
management, against the consumer cursor value read from the block.
Returns (marker fired?, periodic event count, updated worker state). -/
def processAudioBufferEvents (user : Nat) (s : NotifyState) :
    Bool × Nat × NotifyState :=
  let m := markerStep user s
  let p := periodicStep user m.2
  (m.1, p.1, p.2)

/-- Repeated worker iterations, one per observed consumer cursor value;
totals the marker events and periodic events fired across the run. -/
def runWorkerIters : List Nat → NotifyState → Nat × Nat × NotifyState
  | [], s => (0, 0, s)
  | u :: us, s =>
    let stp := processAudioBufferEvents u s
    let rest := runWorkerIters us stp.2.2
    ((if stp.1 then 1 else 0) + rest.1, stp.2.1 + rest.2.1, rest.2.2)

/-- AudioSystem::sync_event_t as start() distinguishes it: the source only
tests equality with SYNC_EVENT_NONE; SAME and the remaining values are
kept apart for faithfulness. -/
inductive SyncEvent where
  | sync_event_none
  | sync_event_same
  | sync_event_other
  deriving DecidableEq, Repr

/-- Oracle for one start() call: the status of the producer-side start and
the environment of a restoreRecord_l invocation if one happens. -/
structure StartEnv where
  serviceStart : Status
  restoreEnv : RestoreEnv

/-- The producer-start-and-recover core of start() (AudioRecord.cpp lines
437-450): issue the producer-side start unless the block is already
INVALID, flag INVALID on DEAD_OBJECT, run recovery if the block is
INVALID; yields (status, session, block reference held at the end). -/
def startAttempt (s1 : Session) (env : StartEnv) : Status × Session × Cblk :=
  let retSvc : Status :=
    if s1.cblk.flags &&& CBLK_INVALID_MSK = 0 then env.serviceStart else Status.NO_ERROR
  let c1 : Cblk :=
    if s1.cblk.flags &&& CBLK_INVALID_MSK = 0 ∧ env.serviceStart = Status.DEAD_OBJECT
    then { s1.cblk with flags := s1.cblk.flags ||| CBLK_INVALID_ON }
    else s1.cblk
  let s2 : Session := { s1 with cblk := c1 }
  if c1.flags &&& CBLK_INVALID_MSK ≠ 0 then restoreRecord_l s2 c1 env.restoreEnv
  else (retSvc, s2, c1)

/-- AudioRecord::start (AudioRecord.cpp lines 398-474), restricted to the
state the claims concern (the callback-thread gating and the
scheduling-priority bookkeeping are excluded collaborators).  A no-op on
an already-active session.  Otherwise run startAttempt, and on overall
success seed mNewPosition from the (possibly new) block's consumer
cursor and reset the timeout state, with the ceiling picked by the
synchronization mode; on failure mark the session inactive again. -/
def start (s : Session) (ns : NotifyState) (event : SyncEvent) (env : StartEnv) :
    Status × Session × NotifyState :=
  if s.active then (Status.NO_ERROR, s, ns)
  else
    match startAttempt { s with active := true } env with
    | (ret, s2, cb) =>
      if ret = Status.NO_ERROR then
        let c2 : Cblk :=
          { cb with
              bufferTimeoutMs :=
                if event = SyncEvent.sync_event_none then MAX_RUN_TIMEOUT_MS
                else kSyncRecordStartTimeOutMs,
              waitTimeMs := 0 }
        (Status.NO_ERROR, { s2 with cblk := c2 },
         { ns with newPosition := u32 (cb.user + ns.updatePeriod) })
      else (ret, { s2 with active := false }, ns)

/-- AudioRecord::setMarkerPosition (AudioRecord.cpp lines 512-520): rejected
when no callback was registered at creation; otherwise store the marker
and clear the reached latch. -/
def setMarkerPosition (hasCbf : Bool) (ns : NotifyState) (marker : Nat) :
    Status × NotifyState :=
  if hasCbf = false then (Status.INVALID_OPERATION, ns)
  else (Status.NO_ERROR, { ns with markerPosition := marker, markerReached := false })

/-- AudioRecord::setPositionUpdatePeriod (AudioRecord.cpp lines 531-541):
rejected when no callback was registered at creation; otherwise seed
mNewPosition to the current consumer cursor plus the period (uint32 add)
and store the period. -/
def setPositionUpdatePeriod (hasCbf : Bool) (user : Nat) (ns : NotifyState)
    (updatePeriod : Nat) : Status × NotifyState :=
  if hasCbf = false then (Status.INVALID_OPERATION, ns)
  else (Status.NO_ERROR,
        { ns with newPosition := u32 (user + updatePeriod), updatePeriod := updatePeriod })

/-- The single-flight gate of restoreRecord_l: n threads execute the atomic
android_atomic_or(CBLK_RESTORING_ON, flags) in some serialization (the
hardware serializes the atomic op); a thread becomes the rebuild leader
exactly when the value it reads back has the RESTORING bit clear.
tasLeaders counts the leaders among n serialized threads. -/
def tasLeaders (flags : Nat) : Nat → Nat
  | 0 => 0
  | n + 1 =>
    (if flags &&& CBLK_RESTORING_MSK = 0 then 1 else 0) +
      tasLeaders (flags ||| CBLK_RESTORING_ON) n

/-- A concrete control block whose ready region (16 frames) wraps past the
ring's physical end: user is 10 past userBase with capacity 16, so only 6
contiguous frames remain before the wrap. -/
def cblkRdy : Cblk := ⟨16, 2, 8000, 10, 0, 26, 0, 0, 1000⟩

/-- A concrete control block with no data ready (server = user). -/
def cblkEmpty : Cblk := ⟨16, 2, 8000, 10, 0, 10, 0, 0, 1000⟩

/-- A concrete control block flagged INVALID, RESTORING clear. -/
def cblkInvalid : Cblk := ⟨16, 2, 8000, 10, 0, 10, 8, 0, 1000⟩

/-- A concrete control block flagged INVALID and RESTORING (a recovery led
by another thread is in flight), RESTORED still clear. -/
def cblkFollow : Cblk := ⟨16, 2, 8000, 10, 0, 10, 40, 0, 1000⟩

/-- An active session on cblkRdy. -/
def sessRdyActive : Session := ⟨true, cblkRdy, 1, 1⟩

/-- An inactive (stopped) session on cblkRdy. -/
def sessRdyInactive : Session := ⟨false, cblkRdy, 1, 1⟩

/-- An inactive session with no frames ready. -/
def sessEmptyInactive : Session := ⟨false, cblkEmpty, 1, 1⟩

/-- An active session holding the INVALID block. -/
def sessActInv : Session := ⟨true, cblkInvalid, 1, 1⟩

/-- An active session holding the block of an in-flight recovery. -/
def sessFollow : Session := ⟨true, cblkFollow, 1, 1⟩

/-- A caller Buffer requesting 20 frames. -/
def bufReq20 : Buffer := ⟨0, 0, 0, 20, 0, 0⟩

/-- A restore environment whose openRecord_l service call fails with
NO_INIT. -/
def envOpenFail : RestoreEnv := ⟨.error .NO_INIT, .NO_ERROR, true, true, cblkRdy⟩

/-- A restore environment for a follower whose bounded wait for RESTORED
times out. -/
def envWaitTimeout : RestoreEnv := ⟨.error .NO_INIT, .NO_ERROR, false, true, cblkRdy⟩

/-- A start environment whose producer-side start succeeds. -/
def envStartOk : StartEnv := ⟨.NO_ERROR, envOpenFail⟩

/-- The worker state right after setPositionUpdatePeriod(100) at cursor 0:
period 100, next notify position seeded to 100. -/
def nsPeriod100 : NotifyState := ⟨0, false, 100, 100⟩

/-- A worker state with marker 1000 armed and no periodic notifications. -/
def nsMarker1000 : NotifyState := ⟨1000, false, 0, 0⟩

/-- A worker state with update period 50 and nothing armed. -/
def nsSeed : NotifyState := ⟨0, false, 0, 50⟩

/-- The result obtainBuffer produces for sessRdyActive/bufReq20: a filled
view clamped to the 6 contiguous frames before the wrap. -/
def resFilledOk : ObtainResult := ⟨.filled, .NO_ERROR, ⟨0, 1, 1, 6, 12, 20⟩, sessRdyActive⟩

/-- The result obtainBuffer produces for sessRdyInactive/bufReq20: the same
view with status STOPPED. -/
def resStopView : ObtainResult := ⟨.filled, .STOPPED, ⟨0, 1, 1, 6, 12, 20⟩, sessRdyInactive⟩

/-- The result obtainBuffer produces for sessEmptyInactive/bufReq20: the
NO_MORE_BUFFERS error with the zeroed buffer. -/
def resInactive : ObtainResult :=
  ⟨.err .inactiveEntry, .NO_MORE_BUFFERS, ⟨0, 0, 0, 0, 0, 0⟩, sessEmptyInactive⟩


theorem framesReady_timeouts (c : Cblk) (a b : Nat) :
    ({ c with waitTimeMs := a, bufferTimeoutMs := b } : Cblk).framesReady = c.framesReady := rfl

theorem lor_restoring_and (f : Nat) :
    (f ||| CBLK_RESTORING_ON) &&& CBLK_RESTORING_MSK ≠ 0 := by
  intro h
  have h5 := congrArg (fun n => Nat.testBit n 5) h
  simp only [Nat.testBit_land, Nat.testBit_lor, CBLK_RESTORING_ON, CBLK_RESTORING_MSK] at h5
  have h32 : Nat.testBit 32 5 = true := by decide
  have h0 : Nat.testBit 0 5 = false := by decide
  rw [h32, h0] at h5
  simp at h5

theorem tasLeaders_set (n : Nat) :
    ∀ f : Nat, f &&& CBLK_RESTORING_MSK ≠ 0 → tasLeaders f n = 0 := by
  induction n with
  | zero => intro f _; rfl
  | succ n ih =>
    intro f hf
    unfold tasLeaders
    rw [if_neg hf, ih (f ||| CBLK_RESTORING_ON) (lor_restoring_and f)]

/-- Claim C10 (confirmed): setMarkerPosition and setPositionUpdatePeriod
return INVALID_OPERATION and leave the worker state unchanged when no
callback was registered at creation; with a callback registered,
setMarkerPosition stores the marker and clears the marker-reached latch
(re-arming it), and setPositionUpdatePeriod seeds the next notify
position and stores the period. -/
theorem marker_period_set_spec (ns : NotifyState) (user marker updatePeriod : Nat) :
    setMarkerPosition false ns marker = (Status.INVALID_OPERATION, ns) ∧
    setPositionUpdatePeriod false user ns updatePeriod = (Status.INVALID_OPERATION, ns) ∧
    setMarkerPosition true ns marker =
      (Status.NO_ERROR, { ns with markerPosition := marker, markerReached := false }) ∧
    setPositionUpdatePeriod true user ns updatePeriod =
      (Status.NO_ERROR,
       { ns with newPosition := u32 (user + updatePeriod), updatePeriod := updatePeriod }) := by
  refine ⟨rfl, rfl, ?_, ?_⟩ <;> simp [setMarkerPosition, setPositionUpdatePeriod]

/-- Claim C4 (confirmed): if the recovery leader's rebuild fails (reopening
the stream or the subsequent producer-side start returns an error), the
session is marked inactive and that failure status is the leader's own
return value; a follower returns STOPPED whenever its bounded wait for
RESTORED times out, or the session ended up inactive (the rebuild did not
in fact succeed). -/
theorem restore_failure_reporting (s : Session) (c : Cblk) (env : RestoreEnv) :
    (c.flags &&& CBLK_RESTORING_MSK = 0 →
      (restoreRecord_l s c env).1 = leaderResult env ∧
      ((restoreRecord_l s c env).1 ≠ Status.NO_ERROR →
        (restoreRecord_l s c env).2.1.active = false)) ∧
    (c.flags &&& CBLK_RESTORING_MSK ≠ 0 →
      (c.flags &&& CBLK_RESTORED_MSK = 0 →
        (env.waitOk = false ∨ env.activeAfterWait = false) →
        (restoreRecord_l s c env).1 = Status.STOPPED) ∧
      (c.flags &&& CBLK_RESTORED_MSK ≠ 0 → s.active = false →
        (restoreRecord_l s c env).1 = Status.STOPPED)) := by
  constructor
  · intro hlead
    unfold restoreRecord_l leaderResult
    rw [if_pos hlead]
    cases hop : env.openResult with
    | error e =>
      by_cases he : e = Status.NO_ERROR <;>
        by_cases hst : env.startStatus = Status.NO_ERROR <;>
          simp [he, hst]
    | ok newC =>
      by_cases hst : env.startStatus = Status.NO_ERROR <;> simp [hst]
  · intro hfoll
    unfold restoreRecord_l
    rw [if_neg hfoll]
    constructor
    · intro hnr hbad
      rw [if_pos hnr]
      rcases hbad with hw | ha
      · simp [hw]
      · by_cases hw : env.waitOk <;> simp [hw, ha]
    · intro hr hina
      rw [if_neg hr]
      simp [hina]

theorem restore_failure_reporting_w :
    (restoreRecord_l sessActInv cblkInvalid envOpenFail).2.1.active = false ∧
    (restoreRecord_l sessFollow cblkFollow envWaitTimeout).1 = Status.STOPPED :=
  ⟨((restore_failure_reporting sessActInv cblkInvalid envOpenFail).1 (by decide)).2 (by decide),
   ((restore_failure_reporting sessFollow cblkFollow envWaitTimeout).2 (by decide)).1
     (by decide) (Or.inl rfl)⟩

/-- Claim C1 (counterexample): a thread that performs the rebuild (its
test-and-set finds RESTORING clear) and whose openRecord_l fails returns
the failure status NO_INIT, which is neither success nor STOPPED, so not
every participating thread returns success-or-Stopped. -/
theorem restore_leader_error_cex :
    cblkInvalid.flags &&& CBLK_RESTORING_MSK = 0 ∧
    (restoreRecord_l sessActInv cblkInvalid envOpenFail).1 = Status.NO_INIT ∧
    Status.NO_INIT ≠ Status.NO_ERROR ∧ Status.NO_INIT ≠ Status.STOPPED := by
  decide

/-- Claim C1 (amended, proved): recovery is single-flight — under any
serialization of the atomic test-and-set of the RESTORING bit, at most
one of n participating threads becomes the rebuild leader, and exactly
one when the bit starts clear; every follower returns success or STOPPED;
a leader returns success exactly with the rebuild outcome, and on success
the session's control-block pointer has been replaced by the freshly
installed block.  (The original claim's "every thread returns success or
Stopped" fails for a leader whose rebuild fails: it returns that failure
status, see the counterexample.) -/
theorem single_flight_restore :
    (∀ flags n : Nat, tasLeaders flags n ≤ 1) ∧
    (∀ flags n : Nat, flags &&& CBLK_RESTORING_MSK = 0 → 1 ≤ n → tasLeaders flags n = 1) ∧
    (∀ (s : Session) (c : Cblk) (env : RestoreEnv), c.flags &&& CBLK_RESTORING_MSK ≠ 0 →
      (restoreRecord_l s c env).1 = Status.NO_ERROR ∨
      (restoreRecord_l s c env).1 = Status.STOPPED) ∧
    (∀ (s : Session) (c : Cblk) (env : RestoreEnv) (newC : Cblk),
      c.flags &&& CBLK_RESTORING_MSK = 0 → env.openResult = .ok newC →
      env.startStatus = Status.NO_ERROR →
      (restoreRecord_l s c env).1 = Status.NO_ERROR ∧
      (restoreRecord_l s c env).2.1.cblk = openRecord_l_install newC) := by
  refine ⟨?_, ?_, ?_, ?_⟩
  · intro flags n
    cases n with
    | zero => exact Nat.le_refl 0 |>.trans (Nat.zero_le 1)
    | succ n =>
      unfold tasLeaders
      rw [tasLeaders_set n (flags ||| CBLK_RESTORING_ON) (lor_restoring_and flags)]
      split <;> omega
  · intro flags n hclear hn
    cases n with
    | zero => omega
    | succ n =>
      unfold tasLeaders
      rw [if_pos hclear,
        tasLeaders_set n (flags ||| CBLK_RESTORING_ON) (lor_restoring_and flags)]
  · intro s c env hfoll
    unfold restoreRecord_l
    rw [if_neg hfoll]
    split
    · split <;> simp_all
    · split <;> simp_all
  · intro s c env newC hlead hop hst
    unfold restoreRecord_l
    rw [if_pos hlead, hop]
    simp [hst]

theorem single_flight_restore_w :
    tasLeaders 8 3 = 1 ∧
    ((restoreRecord_l sessFollow cblkFollow envWaitTimeout).1 = Status.NO_ERROR ∨
     (restoreRecord_l sessFollow cblkFollow envWaitTimeout).1 = Status.STOPPED) :=
  ⟨single_flight_restore.2.1 8 3 (by decide) (by decide),
   single_flight_restore.2.2.1 sessFollow cblkFollow envWaitTimeout (by decide)⟩

/-- Claim C2 (counterexample): an obtainBuffer call on an inactive session
with frames ready at entry does not return NO_MORE_BUFFERS — it returns
the valid clamped view with status STOPPED. -/
theorem obtain_inactive_ready_cex :
    sessRdyInactive.active = false ∧
    obtainBuffer sessRdyInactive bufReq20 1 [] = some resStopView ∧
    resStopView.status = Status.STOPPED ∧
    Status.STOPPED ≠ Status.NO_MORE_BUFFERS := by
  decide

/-- Claim C2 (amended, proved): an obtainBuffer call made while the session
is inactive returns NO_MORE_BUFFERS without blocking (no oracle event is
consumed, so the result is the same for every environment) provided
framesReady() is zero at entry; when frames are ready at entry the call
instead returns the valid view with status STOPPED (see the
counterexample). -/
theorem obtain_inactive_nmb (s : Session) (bufIn : Buffer) (waitCount : Int)
    (events : List WaitEvent)
    (hina : s.active = false) (hfr : s.cblk.framesReady = 0) :
    obtainBuffer s bufIn waitCount events =
      some { exit := .err .inactiveEntry, status := Status.NO_MORE_BUFFERS,
             buf := { bufIn with frameCount := 0, size := 0 }, sess := s } := by
  unfold obtainBuffer obtainLoop
  rw [hfr, hina]
  simp

theorem obtain_inactive_nmb_w :
    obtainBuffer sessEmptyInactive bufReq20 5 [] =
      some { exit := .err .inactiveEntry, status := Status.NO_MORE_BUFFERS,
             buf := { bufReq20 with frameCount := 0, size := 0 },
             sess := sessEmptyInactive } :=
  obtain_inactive_nmb sessEmptyInactive bufReq20 5 [] rfl (by decide)

/-- Claim C7 (counterexample): a successful start with synchronization mode
SYNC_EVENT_NONE sets bufferTimeoutMs to the steady-state running ceiling
MAX_RUN_TIMEOUT_MS, not to the larger initial-sync ceiling, so the
ceiling is not set to the initial-sync value regardless of mode. -/
theorem start_timeout_mode_cex :
    (start sessEmptyInactive nsSeed SyncEvent.sync_event_none envStartOk).1 = Status.NO_ERROR ∧
    (start sessEmptyInactive nsSeed SyncEvent.sync_event_none envStartOk).2.1.cblk.bufferTimeoutMs
      = MAX_RUN_TIMEOUT_MS ∧
    MAX_RUN_TIMEOUT_MS ≠ kSyncRecordStartTimeOutMs := by
  decide

/-- Claim C7 (amended, proved): every successful start() on an inactive
session seeds the next periodic-notification position to the (possibly
restored) block's consumer cursor plus the update period and clears
waitTimeMs; bufferTimeoutMs is set to the larger initial-sync ceiling
only when a synchronization event other than SYNC_EVENT_NONE was passed,
and to the steady-state running ceiling for SYNC_EVENT_NONE (see the
counterexample). -/
theorem start_seed_reset (s : Session) (ns : NotifyState) (event : SyncEvent)
    (env : StartEnv) (hina : s.active = false)
    (hok : (start s ns event env).1 = Status.NO_ERROR) :
    (start s ns event env).2.2.newPosition =
      u32 ((start s ns event env).2.1.cblk.user + ns.updatePeriod) ∧
    (start s ns event env).2.1.cblk.waitTimeMs = 0 ∧
    (start s ns event env).2.1.cblk.bufferTimeoutMs =
      (if event = SyncEvent.sync_event_none then MAX_RUN_TIMEOUT_MS
       else kSyncRecordStartTimeOutMs) := by
  unfold start at hok ⊢
  rw [hina] at hok ⊢
  simp only [Bool.false_eq_true, if_false] at hok ⊢
  rcases hA : startAttempt { s with active := true } env with ⟨ret, s2, cb⟩
  by_cases hr : ret = Status.NO_ERROR
  · subst hr
    exact ⟨rfl, rfl, rfl⟩
  · rw [hA] at hok
    simp [hr] at hok

theorem start_seed_reset_w :
    (start sessEmptyInactive nsSeed SyncEvent.sync_event_same envStartOk).2.2.newPosition =
      u32 ((start sessEmptyInactive nsSeed SyncEvent.sync_event_same envStartOk).2.1.cblk.user
        + nsSeed.updatePeriod) ∧
    (start sessEmptyInactive nsSeed SyncEvent.sync_event_same envStartOk).2.1.cblk.waitTimeMs = 0 ∧
    (start sessEmptyInactive nsSeed SyncEvent.sync_event_same envStartOk).2.1.cblk.bufferTimeoutMs =
      (if SyncEvent.sync_event_same = SyncEvent.sync_event_none then MAX_RUN_TIMEOUT_MS
       else kSyncRecordStartTimeOutMs) :=
  start_seed_reset sessEmptyInactive nsSeed SyncEvent.sync_event_same envStartOk rfl (by decide)

theorem markerStep_newPosition (user : Nat) (ns : NotifyState) :
    (markerStep user ns).2.newPosition = ns.newPosition := by
  unfold markerStep
  split <;> simp

theorem markerStep_updatePeriod (user : Nat) (ns : NotifyState) :
    (markerStep user ns).2.updatePeriod = ns.updatePeriod := by
  unfold markerStep
  split <;> simp

theorem markerStep_pos (user : Nat) (ns : NotifyState)
    (h : ns.markerReached = false ∧ 0 < ns.markerPosition ∧ ns.markerPosition ≤ user) :
    markerStep user ns = (true, { ns with markerReached := true }) := by
  unfold markerStep
  rw [if_pos h]

theorem markerStep_neg (user : Nat) (ns : NotifyState)
    (h : ¬ (ns.markerReached = false ∧ 0 < ns.markerPosition ∧ ns.markerPosition ≤ user)) :
    markerStep user ns = (false, ns) := by
  unfold markerStep
  rw [if_neg h]

theorem periodicStep_markerReached (user : Nat) (ns : NotifyState) :
    (periodicStep user ns).2.markerReached = ns.markerReached := by
  unfold periodicStep
  split <;> simp

theorem periodicStep_markerPosition (user : Nat) (ns : NotifyState) :
    (periodicStep user ns).2.markerPosition = ns.markerPosition := by
  unfold periodicStep
  split <;> simp

theorem fires_le (user np p : Nat) : fires user np p ≤ user + 1 := by
  unfold fires
  split
  · have := Nat.div_le_self (user - np) p
    omega
  · omega

theorem fires_step (user np p : Nat) (hp : 0 < p) (h : np ≤ user) :
    fires user np p = fires user (np + p) p + 1 := by
  unfold fires
  rw [if_pos h]
  by_cases h2 : np + p ≤ user
  · rw [if_pos h2]
    have hle : p ≤ user - np := by omega
    rw [Nat.div_eq_sub_div hp hle]
    have he : user - np - p = user - (np + p) := by omega
    rw [he]
  · rw [if_neg h2]
    have hlt : user - np < p := by omega
    rw [Nat.div_eq_of_lt hlt]

theorem notifyLoopAux_eq (user p : Nat) (hp : 0 < p) (hb : user + p < 4294967296) :
    ∀ (fuel np : Nat), fires user np p ≤ fuel →
      notifyLoopAux fuel user np p = (fires user np p, np + p * fires user np p) := by
  intro fuel
  induction fuel with
  | zero =>
    intro np hle
    have h0 : fires user np p = 0 := Nat.le_zero.mp hle
    rw [h0]
    unfold notifyLoopAux
    simp
  | succ fuel ih =>
    intro np hle
    by_cases h : np ≤ user
    · have hmod : u32 (np + p) = np + p := Nat.mod_eq_of_lt (by omega)
      have hstep := fires_step user np p hp h
      have hrec : fires user (np + p) p ≤ fuel := by omega
      unfold notifyLoopAux
      rw [if_pos h, hmod, ih (np + p) hrec, hstep]
      simp only [Prod.mk.injEq, Nat.mul_succ, true_and]
      ring
    · have h0 : fires user np p = 0 := by
        unfold fires
        rw [if_neg h]
      unfold notifyLoopAux
      rw [if_neg h, h0]
      simp

theorem fires_seeded (startPos finalPos P : Nat) (hP : 0 < P) (hle : startPos ≤ finalPos) :
    fires finalPos (startPos + P) P = (finalPos - startPos) / P := by
  unfold fires
  by_cases h : startPos + P ≤ finalPos
  · rw [if_pos h]
    have h2 : P ≤ finalPos - startPos := by omega
    rw [Nat.div_eq_sub_div hP h2]
    have he : finalPos - startPos - P = finalPos - (startPos + P) := by omega
    rw [he]
  · rw [if_neg h]
    have hlt : finalPos - startPos < P := by omega
    rw [Nat.div_eq_of_lt hlt]

/-- Claim C5 (confirmed): with a positive update period P configured and
the next-notify position seeded to startPos + P (as start() and
setPositionUpdatePeriod seed it), a worker iteration observing the
consumer cursor at finalPos fires the periodic-position event exactly
floor((finalPos - startPos) / P) times, each firing advancing the
next-notify position by P (so it ends at startPos + P + P * count).  The
bound finalPos + P < 2^32 keeps the source's 32-bit position increments
from wrapping. -/
theorem periodic_fire_count (startPos finalPos P : Nat) (ns : NotifyState)
    (hP : 0 < P) (hle : startPos ≤ finalPos) (hb : finalPos + P < 4294967296)
    (hper : ns.updatePeriod = P) (hnp : ns.newPosition = startPos + P) :
    (processAudioBufferEvents finalPos ns).2.1 = (finalPos - startPos) / P ∧
    (processAudioBufferEvents finalPos ns).2.2.newPosition =
      startPos + P + P * ((finalPos - startPos) / P) := by
  simp only [processAudioBufferEvents, periodicStep]
  rw [markerStep_updatePeriod, markerStep_newPosition, hper, hnp, if_pos hP]
  have hfle : fires finalPos (startPos + P) P ≤ finalPos + 1 := fires_le _ _ _
  rw [notifyLoopAux_eq finalPos P hP hb (finalPos + 1) (startPos + P) hfle,
    fires_seeded startPos finalPos P hP hle]
  simp

theorem periodic_fire_count_w :
    (processAudioBufferEvents 350 nsPeriod100).2.1 = (350 - 0) / 100 ∧
    (processAudioBufferEvents 350 nsPeriod100).2.2.newPosition =
      0 + 100 + 100 * ((350 - 0) / 100) :=
  periodic_fire_count 0 350 100 nsPeriod100 (by decide) (by decide) (by decide)
    (by decide) (by decide)

theorem runWorker_marker_count (us : List Nat) : ∀ ns : NotifyState,
    (runWorkerIters us ns).1 =
      (if ns.markerReached = false ∧ 0 < ns.markerPosition ∧
          us.any (fun u => decide (ns.markerPosition ≤ u)) = true then 1 else 0) := by
  induction us with
  | nil =>
    intro ns
    simp [runWorkerIters]
  | cons u us ih =>
    intro ns
    simp only [runWorkerIters, processAudioBufferEvents, List.any_cons]
    by_cases h : ns.markerReached = false ∧ 0 < ns.markerPosition ∧ ns.markerPosition ≤ u
    · simp only [markerStep_pos u ns h, ih, periodicStep_markerReached,
        periodicStep_markerPosition]
      simp [h.1, h.2.1, h.2.2]
    · simp only [markerStep_neg u ns h, ih, periodicStep_markerReached,
        periodicStep_markerPosition]
      by_cases h1 : ns.markerReached = false
      · by_cases h2 : 0 < ns.markerPosition
        · have h3 : ¬ ns.markerPosition ≤ u := fun hc => h ⟨h1, h2, hc⟩
          simp [h1, h2, h3]
        · simp [h1, h2]
      · simp [h1]

/-- Claim C6 (confirmed): with a positive marker position armed
(marker-reached latch clear), at most one marker event fires across any
sequence of worker iterations, and exactly one as soon as some iteration
observes the consumer cursor at or past the marker — in particular also
when a single release advances the cursor past the marker in one large
step. -/
theorem marker_fires_once (us : List Nat) (ns : NotifyState) (m : Nat)
    (hm : ns.markerPosition = m) (hpos : 0 < m) (harm : ns.markerReached = false) :
    (runWorkerIters us ns).1 =
      (if us.any (fun u => decide (m ≤ u)) = true then 1 else 0) := by
  subst hm
  rw [runWorker_marker_count]
  simp [harm, hpos]

theorem marker_fires_once_w :
    (runWorkerIters [400, 1900] nsMarker1000).1 =
      (if [400, 1900].any (fun u => decide (1000 ≤ u)) = true then 1 else 0) :=
  marker_fires_once [400, 1900] nsMarker1000 1000 rfl (by decide) rfl

theorem obtainLoop_ready_fr (events : List WaitEvent) :
    ∀ (waitMs : Nat) (s : Session) (prev : Status) (wc : Int) (s1 : Session) (fr1 : Nat),
      obtainLoop waitMs s prev wc s.cblk.framesReady events = some (.ready s1 fr1) →
      fr1 = s1.cblk.framesReady ∧ fr1 ≠ 0 := by
  induction events with
  | nil =>
    intro waitMs s prev wc s1 fr1 h
    unfold obtainLoop at h
    split at h
    · rename_i hfr
      rw [Option.some.injEq] at h
      cases h
      exact ⟨rfl, hfr⟩
    · split at h
      · simp at h
      · split at h
        · simp at h
        · simp at h
  | cons e rest ih =>
    intro waitMs s prev wc s1 fr1 h
    unfold obtainLoop at h
    split at h
    · rename_i hfr
      rw [Option.some.injEq] at h
      cases h
      exact ⟨rfl, hfr⟩
    · split at h
      · simp at h
      · split at h
        · simp at h
        · have h2 : (match obtainStep s waitMs prev wc e with
              | StepOut.ret ex st sx => some (LoopOut.err ex st sx)
              | StepOut.cont sx resx wcx =>
                obtainLoop waitMs sx resx wcx sx.cblk.framesReady rest) =
              some (LoopOut.ready s1 fr1) := h
          cases hs : obtainStep s waitMs prev wc e with
          | ret ex st s2 =>
            rw [hs] at h2
            simp at h2
          | cont s2 res2 wc2 =>
            rw [hs] at h2
            exact ih waitMs s2 res2 wc2 s1 fr1 h2

/-- Claim C8 (confirmed): whenever obtainBuffer returns through any of the
wait-loop error paths (NO_MORE_BUFFERS, WOULD_BLOCK, STOPPED observed
after a wait, a nudge or recovery failure, or TIMED_OUT), the caller's
Buffer has frameCount = 0 and size = 0: both fields are zeroed at entry
and only the final fill path assigns them again, so no error return
exposes a stale or partial view. -/
theorem obtain_error_zeroed (s : Session) (bufIn : Buffer) (waitCount : Int)
    (events : List WaitEvent) (r : ObtainResult)
    (h : obtainBuffer s bufIn waitCount events = some r)
    (hex : r.exit ≠ ObtainExit.filled) :
    r.buf.frameCount = 0 ∧ r.buf.size = 0 := by
  unfold obtainBuffer at h
  revert h
  match hL : obtainLoop (if waitCount < 0 then s.cblk.bufferTimeoutMs else WAIT_PERIOD_MS)
      s Status.NO_ERROR waitCount s.cblk.framesReady events with
  | none => intro h; simp at h
  | some (.err ex st s1) =>
    intro h
    rw [Option.some.injEq] at h
    cases h
    exact ⟨rfl, rfl⟩
  | some (.ready s1 fr) =>
    intro h
    rw [Option.some.injEq] at h
    cases h
    exact absurd rfl hex

theorem obtain_error_zeroed_w :
    resInactive.buf.frameCount = 0 ∧ resInactive.buf.size = 0 :=
  obtain_error_zeroed sessEmptyInactive bufReq20 5 [] resInactive (by decide) (by decide)

/-- Claim C9 (confirmed): on every return of obtainBuffer through the final
fill path (status NO_ERROR, or STOPPED with a valid view), the returned
Buffer is internally consistent: its byte size equals its frame count
times the control block's frameSize, and its raw pointer addresses the
consumer cursor's current offset within the shared ring. -/
theorem obtain_view_consistent (s : Session) (bufIn : Buffer) (waitCount : Int)
    (events : List WaitEvent) (r : ObtainResult)
    (h : obtainBuffer s bufIn waitCount events = some r)
    (hex : r.exit = ObtainExit.filled) :
    r.buf.size = r.buf.frameCount * r.sess.cblk.frameSize ∧
    r.buf.raw = r.sess.cblk.bufferOffset r.sess.cblk.user := by
  unfold obtainBuffer at h
  revert h
  match hL : obtainLoop (if waitCount < 0 then s.cblk.bufferTimeoutMs else WAIT_PERIOD_MS)
      s Status.NO_ERROR waitCount s.cblk.framesReady events with
  | none => intro h; simp at h
  | some (.err ex st s1) =>
    intro h
    rw [Option.some.injEq] at h
    cases h
    simp at hex
  | some (.ready s1 fr) =>
    intro h
    rw [Option.some.injEq] at h
    cases h
    exact ⟨rfl, rfl⟩

theorem obtain_view_consistent_w :
    resFilledOk.buf.size = resFilledOk.buf.frameCount * resFilledOk.sess.cblk.frameSize ∧
    resFilledOk.buf.raw = resFilledOk.sess.cblk.bufferOffset resFilledOk.sess.cblk.user :=
  obtain_view_consistent sessRdyActive bufReq20 1 [] resFilledOk (by decide) (by decide)

/-- Claim C3 (counterexample): a successful obtainBuffer whose request (20)
exceeds framesReady (16) returns a view of 6 frames — the contiguous
distance to the ring's physical end — not of framesReady() frames, so
the returned frame count does not equal framesReady() whenever the ready
region crosses the wrap point. -/
theorem obtain_clamp_cex :
    obtainBuffer sessRdyActive bufReq20 1 [] = some resFilledOk ∧
    resFilledOk.status = Status.NO_ERROR ∧
    resFilledOk.sess.cblk.framesReady < bufReq20.frameCount ∧
    resFilledOk.buf.frameCount ≠ resFilledOk.sess.cblk.framesReady := by
  decide

/-- Claim C3 (amended, proved): every acquire through the final fill path
with requestedFrames greater than the framesReady() observed when
waiting ends returns a view whose frame count is the minimum of
framesReady() and the contiguous distance to the ring's physical end
(userBase + frameCount) - user; hence it never exceeds framesReady() and
never crosses the physical end, but it equals framesReady() only when
the ready region does not cross the wrap point (see the
counterexample). -/
theorem obtain_clamp_min (s : Session) (bufIn : Buffer) (waitCount : Int)
    (events : List WaitEvent) (r : ObtainResult)
    (h : obtainBuffer s bufIn waitCount events = some r)
    (hex : r.exit = ObtainExit.filled) (hst : r.status = Status.NO_ERROR)
    (hreq : r.sess.cblk.framesReady < bufIn.frameCount) :
    r.buf.frameCount =
      min r.sess.cblk.framesReady
        (sub32 (u32 (r.sess.cblk.userBase + r.sess.cblk.frameCount)) r.sess.cblk.user) ∧
    r.buf.frameCount ≤ r.sess.cblk.framesReady ∧
    r.buf.frameCount ≤
      sub32 (u32 (r.sess.cblk.userBase + r.sess.cblk.frameCount)) r.sess.cblk.user := by
  unfold obtainBuffer at h
  revert h
  match hL : obtainLoop (if waitCount < 0 then s.cblk.bufferTimeoutMs else WAIT_PERIOD_MS)
      s Status.NO_ERROR waitCount s.cblk.framesReady events with
  | none => intro h; simp at h
  | some (.err ex st s1) =>
    intro h
    rw [Option.some.injEq] at h
    cases h
    simp at hex
  | some (.ready s1 fr) =>
    intro h
    have hfr := obtainLoop_ready_fr events _ s Status.NO_ERROR waitCount s1 fr hL
    rw [Option.some.injEq] at h
    subst h
    simp only [obtainFill] at hreq ⊢
    rw [framesReady_timeouts] at hreq ⊢
    rw [← hfr.1] at hreq ⊢
    rw [if_pos hreq]
    constructor
    · rw [Nat.min_def]
      split <;> split <;> omega
    · constructor
      · split <;> omega
      · split <;> omega

theorem obtain_clamp_min_w :
    resFilledOk.buf.frameCount =
      min resFilledOk.sess.cblk.framesReady
        (sub32 (u32 (resFilledOk.sess.cblk.userBase + resFilledOk.sess.cblk.frameCount))
          resFilledOk.sess.cblk.user) ∧
    resFilledOk.buf.frameCount ≤ resFilledOk.sess.cblk.framesReady ∧
    resFilledOk.buf.frameCount ≤
      sub32 (u32 (resFilledOk.sess.cblk.userBase + resFilledOk.sess.cblk.frameCount))
        resFilledOk.sess.cblk.user :=
  obtain_clamp_min sessRdyActive bufReq20 1 [] resFilledOk (by decide) (by decide)
    (by decide) (by decide)

end AudioRecord
